import Mathlib

/-!
Shallow embedding of the attendance check-in / check-out cycle of the HRMS
repository (the CheckInOutButton component and the admin attendance sheet).

Conventions of the embedding:

* Timestamps are modelled as integer milliseconds since the local epoch on an
  idealised calendar of uniform 86400000 ms days (no DST), which is the frame
  the specification works in.
* A time-of-day value produced by an HTML input of type "time" is either the
  empty string or a well-formed "HH:MM" string; it is modelled as
  Option (Nat × Nat) (hour, minute), with none playing the empty string.
* JavaScript numbers are idealised as rationals; toFixed(4) becomes rounding
  to four decimal places (round4 below).  On every value reachable here the
  two agree: the rounded quantities are integer multiples of 1/3 scaled by
  10^-4, so no rounding tie and no double-precision artefact can change the
  4-decimal result.
* Backend tables are association lists; a backend write is a pure function on
  the Db value, with injected failure flags standing for network/constraint
  errors.  Toast notifications are collected in a list.
-/

namespace HRMS

/-- Rounding to 4 decimal places: the model of JavaScript's
Number(x.toFixed(4)) as used in calculateHours (part_002 line 301). -/
def round4 (q : ℚ) : ℚ := (round (q * 10000) : ℤ) / 10000

/-- A parsed "HH:MM" time-of-day value: (hours, minutes). -/
abbrev TimeHM := Nat × Nat

/-- Embedding of calculateHours (part_002 lines 283-305): both times are
placed on the same day; if the to-time is not after the from-time one day
(1440 minutes) is added; the difference is converted to fractional hours,
rounded to 4 decimals and clamped to be nonnegative. -/
def calculateHours (f t : TimeHM) : ℚ :=
  let fromMin : ℤ := f.1 * 60 + f.2
  let toMin : ℤ := t.1 * 60 + t.2
  let toMin2 : ℤ := if toMin ≤ fromMin then toMin + 1440 else toMin
  max 0 (round4 (((toMin2 - fromMin : ℤ) : ℚ) / 60))

/-- One of the ten timesheet capture slots (part_002 lines 12-16); the time
fields model an HTML time input (none = empty string). -/
structure TimesheetEntry where
  from_time : Option TimeHM
  to_time : Option TimeHM
  description : String
deriving DecidableEq, Repr

/-- An entry is fully filled when both its times are present; this is the
truthiness test e.from_time && e.to_time from the source. -/
def filledEntry (e : TimesheetEntry) : Bool :=
  e.from_time.isSome && e.to_time.isSome

/-- Embedding of validateTimesheet (part_002 lines 185-189): at least one
entry has both a from-time and a to-time. -/
def validateTimesheet (entries : List TimesheetEntry) : Bool :=
  (entries.filter filledEntry).length > 0

/-- A row of the timesheet_entries table as built in handleCheckOut
(part_002 lines 243-252). -/
structure InsertedEntry where
  timesheet_id : Nat
  entry_number : Nat
  from_time : Option TimeHM
  to_time : Option TimeHM
  description : Option String
  hours : Option ℚ
deriving DecidableEq, Repr

/-- The body of the indexed map at part_002 lines 244-251: slot i becomes a
row with entry_number i+1, null-ified empty fields, and hours computed by
calculateHours exactly when both times are present. -/
def mkInserted (tsId : Nat) (i : Nat) (e : TimesheetEntry) : InsertedEntry :=
  { timesheet_id := tsId
    entry_number := i + 1
    from_time := e.from_time
    to_time := e.to_time
    description := if e.description = "" then none else some e.description
    hours :=
      match e.from_time, e.to_time with
      | some f, some t => some (calculateHours f t)
      | _, _ => none }

/-- The indexed map entries.map((e, i) => ...) of part_002 lines 243-251,
carrying the running slot index. -/
def buildEntries (tsId : Nat) : Nat → List TimesheetEntry → List InsertedEntry
  | _, [] => []
  | i, e :: rest => mkInserted tsId i e :: buildEntries tsId (i + 1) rest

/-- validEntries of part_002 lines 243-252: map each slot to a row, then
keep only the rows whose from_time and to_time are both non-null. -/
def validEntries (tsId : Nat) (entries : List TimesheetEntry) : List InsertedEntry :=
  (buildEntries tsId 0 entries).filter
    (fun e => e.from_time.isSome && e.to_time.isSome)

/-! ## Data model: backend tables and controller state -/

/-- A row of the attendance table as created by handleCheckIn
(part_002 lines 141-151) and updated by handleCheckOut (lines 214-222).
Timestamps are milliseconds; attendance_date is a day index. -/
structure AttendanceRecord where
  id : Nat
  profile_id : Nat
  attendance_date : Nat
  check_in_time : Option ℤ
  check_out_time : Option ℤ
  check_in_ip : Option String
  check_out_ip : Option String
  total_hours : Option ℚ
  timesheet_completed : Bool
  status : String
deriving DecidableEq, Repr

/-- A row of the timesheets table as inserted by handleCheckOut
(part_002 lines 227-237). -/
structure TimesheetRow where
  id : Nat
  profile_id : Nat
  timesheet_date : Nat
  status : String
  submitted_at : Option ℤ
  total_hours : Option ℚ
deriving DecidableEq, Repr

/-- The three backend tables the attendance cycle touches. -/
structure Db where
  attendance : List AttendanceRecord
  timesheets : List TimesheetRow
  timesheet_entries : List InsertedEntry
deriving DecidableEq, Repr

/-- The in-memory controller state of CheckInOutButton
(part_002 lines 21-29): the four pieces of state the cycle reads. -/
structure ControllerState where
  isCheckedIn : Bool
  checkInTime : Option ℤ
  attendanceId : Option Nat
  isCompletedToday : Bool
deriving DecidableEq, Repr

/-- The three mutually exclusive renderings of the button
(part_002 lines 310-332): isCompletedToday wins, then isCheckedIn. -/
inductive Display where
  | completedToday
  | checkedIn
  | notCheckedIn
deriving DecidableEq, Repr

/-- What the widget displays for a given controller state
(part_002 lines 310-332). -/
def displayOf (st : ControllerState) : Display :=
  if st.isCompletedToday then .completedToday
  else if st.isCheckedIn then .checkedIn
  else .notCheckedIn

/-- A toast notification; isError models variant: destructive. -/
structure ToastMsg where
  title : String
  isError : Bool
deriving DecidableEq, Repr

/-- The maybeSingle query of checkTodayAttendance (part_002 lines 78-83):
today's attendance row for the profile, if any. -/
def findToday (db : Db) (pid today : Nat) : Option AttendanceRecord :=
  db.attendance.find? (fun r => r.profile_id == pid && r.attendance_date == today)

/-- Embedding of checkTodayAttendance (part_002 lines 73-109), success path
of the query: no row resets the four state fields; a row records its id,
then an open row (check-in present, no check-out) sets CheckedIn, a
checked-out row sets CompletedToday.  A row with neither branch taken, and
the isCompletedToday flag in the open-row branch, keep their prior values. -/
def checkTodayAttendance (st : ControllerState) (db : Db) (pid today : Nat) :
    ControllerState :=
  match findToday db pid today with
  | none =>
      { st with isCheckedIn := false, checkInTime := none,
                attendanceId := none, isCompletedToday := false }
  | some r =>
      let st1 := { st with attendanceId := some r.id }
      if r.check_in_time.isSome && !r.check_out_time.isSome then
        { st1 with isCheckedIn := true, checkInTime := r.check_in_time }
      else if r.check_out_time.isSome then
        { st1 with isCheckedIn := false, checkInTime := none,
                   isCompletedToday := true }
      else st1

/-! ## Check-in -/

/-- The backend insert into the attendance table of part_005 lines 116-132:
CREATE TABLE public.attendance declares UNIQUE (profile_id,
attendance_date) (line 131), so an insert for a (profile, date) pair that
already has a row fails with a duplicate-key error and writes nothing,
while any other insert appends the row. -/
def insertAttendance (db : Db) (r : AttendanceRecord) : Except String Db :=
  if db.attendance.any
      (fun x => x.profile_id == r.profile_id &&
                x.attendance_date == r.attendance_date) then
    .error "duplicate key value violates unique constraint"
  else
    .ok { db with attendance := db.attendance ++ [r] }

/-- Result of a button handler: the new controller state, the new backend
state, and the toasts shown. -/
structure HandlerResult where
  state : ControllerState
  db : Db
  toasts : List ToastMsg
deriving DecidableEq, Repr

/-- Embedding of handleCheckIn (part_002 lines 122-173).  The client-side
guard (lines 124-131) rejects when an attendance id is known and the day is
not completed; otherwise a row with the current timestamp, source address
and status present is inserted, and only on success does the state move to
CheckedIn.  An insert error is caught and surfaced as an error toast with
no state change. -/
def handleCheckIn (st : ControllerState) (db : Db) (pid today : Nat)
    (now : ℤ) (ip : Option String) (newId : Nat) : HandlerResult :=
  if st.attendanceId.isSome && !st.isCompletedToday then
    { state := st, db := db, toasts := [⟨"Already Checked In", true⟩] }
  else
    match insertAttendance db
        { id := newId, profile_id := pid, attendance_date := today,
          check_in_time := some now, check_out_time := none,
          check_in_ip := ip, check_out_ip := none,
          total_hours := none, timesheet_completed := false,
          status := "present" } with
    | .error _ => { state := st, db := db, toasts := [⟨"Error", true⟩] }
    | .ok db2 =>
        { state := { st with attendanceId := some newId,
                             isCheckedIn := true, checkInTime := some now }
          db := db2
          toasts := [⟨"Checked In", false⟩] }

/-! ## Check-out -/

/-- Total hours computed at part_002 lines 210-211: elapsed milliseconds
from the recorded check-in to now, divided by 1000*60*60; with no recorded
check-in time the code falls back to checkIn = now, yielding 0. -/
def totalHoursOf (checkInTime : Option ℤ) (now : ℤ) : ℚ :=
  match checkInTime with
  | some ci => ((now - ci : ℤ) : ℚ) / 3600000
  | none => 0

/-- The attendance update of part_002 lines 214-222, applied to the row
with the given id. -/
def applyCheckOutUpdate (db : Db) (attId : Nat) (now : ℤ) (ip : Option String)
    (totalHours : ℚ) : Db :=
  { db with attendance := db.attendance.map (fun r =>
      if r.id == attId then
        { r with check_out_time := some now, check_out_ip := ip,
                 total_hours := some totalHours, timesheet_completed := true }
      else r) }

/-- The timesheets insert of part_002 lines 227-237. -/
def insertTimesheetRow (db : Db) (row : TimesheetRow) : Db :=
  { db with timesheets := db.timesheets ++ [row] }

/-- The timesheet_entries insert of part_002 lines 254-260. -/
def insertEntriesRows (db : Db) (rows : List InsertedEntry) : Db :=
  { db with timesheet_entries := db.timesheet_entries ++ rows }

/-- Injected backend failures for the three checkout writes; true means the
corresponding call returns an error. -/
structure WriteFaults where
  updateAttendance : Bool
  insertTimesheet : Bool
  insertEntries : Bool
deriving DecidableEq, Repr

/-- Embedding of handleCheckOut (part_002 lines 191-281).  Validation comes
first and returns before any network call; a missing attendance id returns
silently; then the attendance update, the timesheets insert and (when any
valid entry exists) the timesheet_entries insert run in order, each thrown
error being caught as an error toast that leaves the controller state and
the writes already performed as they are.  Only after all writes succeed
does the state move to CompletedToday. -/
def handleCheckOut (st : ControllerState) (db : Db)
    (entries : List TimesheetEntry) (pid today : Nat) (now : ℤ)
    (ip : Option String) (tsId : Nat) (faults : WriteFaults) : HandlerResult :=
  if !validateTimesheet entries then
    { state := st, db := db, toasts := [⟨"Timesheet Required", true⟩] }
  else
    match st.attendanceId with
    | none => { state := st, db := db, toasts := [] }
    | some attId =>
      let totalHours := totalHoursOf st.checkInTime now
      if faults.updateAttendance then
        { state := st, db := db, toasts := [⟨"Error", true⟩] }
      else
        let db1 := applyCheckOutUpdate db attId now ip totalHours
        if faults.insertTimesheet then
          { state := st, db := db1, toasts := [⟨"Error", true⟩] }
        else
          let db2 := insertTimesheetRow db1
            { id := tsId, profile_id := pid, timesheet_date := today,
              status := "submitted", submitted_at := some now,
              total_hours := some totalHours }
          let ves := validEntries tsId entries
          if ves.length > 0 && faults.insertEntries then
            { state := st, db := db2, toasts := [⟨"Error", true⟩] }
          else
            let db3 := if ves.length > 0 then insertEntriesRows db2 ves else db2
            { state := { st with isCheckedIn := false, checkInTime := none,
                                 isCompletedToday := true }
              db := db3
              toasts := [⟨"Checked Out Successfully", false⟩] }

/-! ## Midnight reset and timer bookkeeping -/

/-- Milliseconds per local day in the idealised (DST-free) calendar. -/
def msPerDay : ℤ := 86400000

/-- The local calendar day an instant falls on. -/
def dayOf (t : ℤ) : ℤ := t / msPerDay

/-- nextMidnight of scheduleMidnightReset (part_002 lines 39-40): today at
24:00:00.000 local time. -/
def nextMidnightOf (t : ℤ) : ℤ := (dayOf t + 1) * msPerDay

/-- msUntilMidnight of part_002 line 42. -/
def msUntilMidnight (t : ℤ) : ℤ := nextMidnightOf t - t

/-- The four state resets at the top of the midnight callback
(part_002 lines 45-48). -/
def midnightResetState (st : ControllerState) : ControllerState :=
  { st with isCheckedIn := false, checkInTime := none,
            attendanceId := none, isCompletedToday := false }

/-- Firing the midnight callback of scheduleMidnightReset (part_002
lines 44-54) at instant t: reset the in-memory state, re-query today's
attendance record, and return the delay of the recursively scheduled next
timer. -/
def fireMidnightTimer (st : ControllerState) (db : Db) (pid : Nat) (t : ℤ) :
    ControllerState × ℤ :=
  (checkTodayAttendance (midnightResetState st) db pid (dayOf t).toNat,
   msUntilMidnight t)

/-- The browser's pending-timeout table: ids still scheduled to fire, and
the next fresh id. -/
structure TimerSys where
  pending : List Nat
  nextId : Nat
deriving DecidableEq, Repr

/-- setTimeout: registers a new pending timer and returns its id. -/
def setTimeoutSys (s : TimerSys) : TimerSys × Nat :=
  ({ pending := s.pending ++ [s.nextId], nextId := s.nextId + 1 }, s.nextId)

/-- clearTimeout: removes the given id from the pending table. -/
def clearTimeoutSys (s : TimerSys) (id : Nat) : TimerSys :=
  { s with pending := s.pending.filter (fun x => x ≠ id) }

/-- Mounting the widget (part_002 lines 36-59): scheduleMidnightReset is
called once and its timer id is the one captured by the effect cleanup. -/
def mountTimers (s : TimerSys) : TimerSys × Nat := setTimeoutSys s

/-- A scheduled midnight timer firing (part_002 lines 44-54): the fired id
stops being pending, and the callback calls scheduleMidnightReset again
(line 53) whose returned timer id is discarded by the code. -/
def fireTimerSys (s : TimerSys) (id : Nat) : TimerSys :=
  (setTimeoutSys { s with pending := s.pending.filter (fun x => x ≠ id) }).1

/-- The effect cleanup on unmount (part_002 line 58): clearTimeout on the
id captured at mount. -/
def unmountCleanup (s : TimerSys) (cleanupId : Nat) : TimerSys :=
  clearTimeoutSys s cleanupId

/-! ## Working-hours display (admin attendance sheet) -/

/-- JavaScript's padStart(2, "0") on the decimal rendering of an integer. -/
def pad2 (n : ℤ) : String :=
  let s := toString n
  if s.length < 2 then "0" ++ s else s

/-- JavaScript truthiness of a number-or-null field: null and 0 are falsy
(the storedHours test at Attendance.tsx line 130). -/
def truthyNum (q : Option ℚ) : Bool :=
  match q with
  | some x => x ≠ 0
  | none => false

/-- Embedding of formatWorkingHours (Attendance.tsx lines 125-148).  With a
check-out time and a truthy stored total_hours, the stored value is broken
into floor hours / minutes / seconds; while checked in, the live difference
currentTime - checkIn truncated to seconds is broken up likewise; otherwise
a dash.  Math.floor is the floor division of the rational parts; the
date-fns differenceInSeconds truncates toward zero, which on the nonnegative
differences used here is Int floor division by 1000. -/
def formatWorkingHours (checkIn checkOut : Option ℤ) (storedHours : Option ℚ)
    (currentTime : ℤ) : String :=
  if checkOut.isSome && truthyNum storedHours then
    let sh := storedHours.getD 0
    let hours : ℤ := ⌊sh⌋
    let minutes : ℤ := ⌊(sh - hours) * 60⌋
    let seconds : ℤ := ⌊((sh - hours) * 60 - minutes) * 60⌋
    pad2 hours ++ ":" ++ pad2 minutes ++ ":" ++ pad2 seconds
  else if checkIn.isSome && !checkOut.isSome then
    let diff : ℤ := (currentTime - checkIn.getD 0) / 1000
    let hours : ℤ := diff / 3600
    let minutes : ℤ := (diff % 3600) / 60
    let seconds : ℤ := diff % 60
    pad2 hours ++ ":" ++ pad2 minutes ++ ":" ++ pad2 seconds
  else "-"

/-! ## Sample inputs used by witnesses -/

/-- A 10-slot submission with a single filled overnight entry 22:00-02:00,
the rest untouched. -/
def sampleEntries : List TimesheetEntry :=
  { from_time := some (22, 0), to_time := some (2, 0),
    description := "support shift" } ::
    List.replicate 9 { from_time := none, to_time := none, description := "" }

/-- A 10-slot submission with no fully-filled entry (slot 3 has only a
from-time). -/
def emptyEntries : List TimesheetEntry :=
  { from_time := some (9, 0), to_time := none, description := "partial" } ::
    List.replicate 9 { from_time := none, to_time := none, description := "" }

/-- A checked-in controller state: checked in at 09:00 (32400000 ms),
attendance row 7. -/
def sampleState : ControllerState :=
  { isCheckedIn := true, checkInTime := some 32400000,
    attendanceId := some 7, isCompletedToday := false }

/-- The single open attendance row 7 for profile 1 on day 100. -/
def sampleRecord : AttendanceRecord :=
  { id := 7, profile_id := 1, attendance_date := 100,
    check_in_time := some 32400000, check_out_time := none,
    check_in_ip := some "203.0.113.7", check_out_ip := none,
    total_hours := none, timesheet_completed := false,
    status := "present" }

/-- A backend holding only that open row. -/
def sampleDb : Db :=
  { attendance := [sampleRecord]
    timesheets := []
    timesheet_entries := [] }

/-! ## Helper lemmas -/

theorem round4_nonneg {q : ℚ} (h : 0 ≤ q) : 0 ≤ round4 q := by
  unfold round4
  have h1 : (0 : ℤ) ≤ round (q * 10000) := by
    rw [round_eq]
    have h2 : ((1 : ℚ) / 2) ≤ q * 10000 + 1 / 2 := by nlinarith
    have h3 := Int.floor_le_floor h2
    have h4 : ⌊(1 : ℚ) / 2⌋ = 0 := by norm_num
    omega
  positivity

theorem round4_le_of_le {q : ℚ} {n : ℤ} (h : q ≤ (n : ℚ)) : round4 q ≤ (n : ℚ) := by
  unfold round4
  have h1 : round (q * 10000) ≤ n * 10000 := by
    rw [round_eq]
    have h2 : q * 10000 + 1 / 2 ≤ (n * 10000 : ℤ) + 1 / 2 := by
      push_cast
      nlinarith
    have h3 := Int.floor_le_floor h2
    have h4 : ⌊((n * 10000 : ℤ) : ℚ) + 1 / 2⌋ = n * 10000 := by
      rw [Int.floor_eq_iff]
      constructor
      · push_cast; linarith
      · push_cast; linarith
    omega
  rw [div_le_iff₀ (by norm_num : (0 : ℚ) < 10000)]
  calc ((round (q * 10000) : ℤ) : ℚ) ≤ ((n * 10000 : ℤ) : ℚ) := by exact_mod_cast h1
    _ = n * 10000 := by push_cast; ring

theorem round4_intCast (n : ℤ) : round4 ((n : ℚ)) = n := by
  unfold round4
  have : (n : ℚ) * 10000 = ((n * 10000 : ℤ) : ℚ) := by push_cast; ring
  rw [this, round_intCast]
  push_cast
  field_simp

theorem round4_idem (q : ℚ) : round4 (round4 q) = round4 q := by
  unfold round4
  have h : ((round (q * 10000) : ℤ) : ℚ) / 10000 * 10000 =
      ((round (q * 10000) : ℤ) : ℚ) := by field_simp
  rw [h, round_intCast]

theorem buildEntries_length (tsId : Nat) (l : List TimesheetEntry) :
    ∀ i, (buildEntries tsId i l).length = l.length := by
  induction l with
  | nil => intro i; rfl
  | cons e rest ih => intro i; simp [buildEntries, ih]

theorem buildEntries_getElem? (tsId : Nat) (l : List TimesheetEntry) :
    ∀ i j, (buildEntries tsId i l)[j]? = (l[j]?).map (mkInserted tsId (i + j)) := by
  induction l with
  | nil => intro i j; simp [buildEntries]
  | cons e rest ih =>
      intro i j
      cases j with
      | zero => simp [buildEntries]
      | succ j =>
          simp only [buildEntries, List.getElem?_cons_succ, ih (i + 1) j]
          have : i + 1 + j = i + (j + 1) := by omega
          rw [this]

theorem mem_buildEntries {tsId : Nat} {l : List TimesheetEntry}
    {ie : InsertedEntry} :
    ie ∈ buildEntries tsId 0 l ↔
      ∃ j e, l[j]? = some e ∧ ie = mkInserted tsId j e := by
  rw [List.mem_iff_getElem?]
  constructor
  · rintro ⟨j, hj⟩
    rw [buildEntries_getElem? tsId l 0 j] at hj
    cases he : l[j]? with
    | none => rw [he] at hj; simp at hj
    | some e =>
        rw [he] at hj
        simp only [Option.map_some'] at hj
        exact ⟨j, e, he, by simpa using hj.symm⟩
  · rintro ⟨j, e, he, rfl⟩
    exact ⟨j, by rw [buildEntries_getElem? tsId l 0 j, he]; simp⟩

theorem mem_validEntries {tsId : Nat} {l : List TimesheetEntry}
    {ie : InsertedEntry} :
    ie ∈ validEntries tsId l ↔
      ∃ j e, l[j]? = some e ∧ filledEntry e = true ∧ ie = mkInserted tsId j e := by
  unfold validEntries
  rw [List.mem_filter, mem_buildEntries]
  constructor
  · rintro ⟨⟨j, e, he, rfl⟩, hf⟩
    refine ⟨j, e, he, ?_, rfl⟩
    simpa [mkInserted, filledEntry] using hf
  · rintro ⟨j, e, he, hf, rfl⟩
    exact ⟨⟨j, e, he, rfl⟩, by simpa [mkInserted, filledEntry] using hf⟩

theorem buildEntries_filter_length (tsId : Nat) (l : List TimesheetEntry) :
    ∀ i, ((buildEntries tsId i l).filter
        (fun e => e.from_time.isSome && e.to_time.isSome)).length
      = (l.filter filledEntry).length := by
  induction l with
  | nil => intro i; rfl
  | cons e rest ih =>
      intro i
      have hpred : ((mkInserted tsId i e).from_time.isSome &&
          (mkInserted tsId i e).to_time.isSome) = filledEntry e := by
        simp [mkInserted, filledEntry]
      cases hf : filledEntry e <;>
        simp [buildEntries, List.filter_cons, hpred, hf, ih (i + 1)]

theorem validEntries_length_eq (tsId : Nat) (l : List TimesheetEntry) :
    (validEntries tsId l).length = (l.filter filledEntry).length :=
  buildEntries_filter_length tsId l 0

theorem validEntries_pos {tsId : Nat} {entries : List TimesheetEntry}
    (hval : validateTimesheet entries = true) :
    0 < (validEntries tsId entries).length := by
  rw [validEntries_length_eq]
  simpa [validateTimesheet] using hval

theorem handleCheckOut_success_eq
    (st : ControllerState) (db : Db) (entries : List TimesheetEntry)
    (pid today : Nat) (now : ℤ) (ip : Option String) (tsId attId : Nat)
    (hval : validateTimesheet entries = true)
    (hid : st.attendanceId = some attId) :
    handleCheckOut st db entries pid today now ip tsId
        ⟨false, false, false⟩ =
      { state := { st with isCheckedIn := false, checkInTime := none,
                           isCompletedToday := true }
        db := insertEntriesRows (insertTimesheetRow
            (applyCheckOutUpdate db attId now ip (totalHoursOf st.checkInTime now))
            { id := tsId, profile_id := pid, timesheet_date := today,
              status := "submitted", submitted_at := some now,
              total_hours := some (totalHoursOf st.checkInTime now) })
          (validEntries tsId entries)
        toasts := [⟨"Checked Out Successfully", false⟩] } := by
  have hpos := @validEntries_pos tsId entries hval
  simp [handleCheckOut, hval, hid, hpos]

theorem calculateHours_eq_clamp (f t : TimeHM) :
    calculateHours f t =
      max 0 (round4
        ((((if (t.1 * 60 + t.2 : ℤ) ≤ (f.1 * 60 + f.2 : ℤ)
            then (t.1 * 60 + t.2 : ℤ) + 1440
            else (t.1 * 60 + t.2 : ℤ)) - (f.1 * 60 + f.2 : ℤ) : ℤ) : ℚ) / 60)) :=
  rfl

theorem round4_close (q : ℚ) : |round4 q - q| ≤ 1 / 20000 := by
  unfold round4
  have h := abs_sub_round (q * 10000)
  rw [abs_sub_comm] at h
  have h2 : ((round (q * 10000) : ℤ) : ℚ) / 10000 - q
      = (((round (q * 10000) : ℤ) : ℚ) - q * 10000) / 10000 := by ring
  rw [h2, abs_div]
  have h3 : |(10000 : ℚ)| = 10000 := by norm_num
  rw [h3, div_le_iff₀ (show (0 : ℚ) < 10000 by norm_num)]
  calc |((round (q * 10000) : ℤ) : ℚ) - q * 10000| ≤ 1 / 2 := h
    _ = 1 / 20000 * 10000 := by norm_num

theorem calculateHours_claim_formula (f t : TimeHM) :
    calculateHours f t =
      max 0 (round4
        ((((t.1 * 60 + t.2 : ℤ) - (f.1 * 60 + f.2 : ℤ) : ℤ) : ℚ) / 60 +
          (if (t.1 * 60 + t.2 : ℤ) ≤ (f.1 * 60 + f.2 : ℤ) then 24 else 0))) := by
  rw [calculateHours_eq_clamp]
  by_cases h : (t.1 * 60 + t.2 : ℤ) ≤ (f.1 * 60 + f.2 : ℤ) <;>
    simp only [h, if_true, if_false, reduceIte] <;> congr 1 <;> congr 1 <;>
    push_cast <;> ring

/-! ## Claim theorems -/

/-- C10: for every pair of parsed well-formed "HH:MM" times (hours at most
23, minutes at most 59) calculateHours yields a value in the closed
interval [0, 24] that is already rounded to 4 decimal places (round4 fixes
it), and equal from- and to-times yield a full 24-hour overnight wrap, not
0.  The embedded function is total, so no exception escapes. -/
theorem calculateHours_safe (fh fm th tm : Nat)
    (hfh : fh ≤ 23) (hfm : fm ≤ 59) (hth : th ≤ 23) (htm : tm ≤ 59) :
    0 ≤ calculateHours (fh, fm) (th, tm) ∧
    calculateHours (fh, fm) (th, tm) ≤ 24 ∧
    round4 (calculateHours (fh, fm) (th, tm)) = calculateHours (fh, fm) (th, tm) ∧
    (fh = th → fm = tm → calculateHours (fh, fm) (th, tm) = 24) := by
  rw [calculateHours_eq_clamp]
  simp only
  set toMin : ℤ := (th : ℤ) * 60 + (tm : ℤ) with hto
  set fromMin : ℤ := (fh : ℤ) * 60 + (fm : ℤ) with hfr
  have hto0 : 0 ≤ toMin := by positivity
  have hfr0 : 0 ≤ fromMin := by positivity
  have hto1 : toMin ≤ 1439 := by
    have h1 : (th : ℤ) ≤ 23 := by exact_mod_cast hth
    have h2 : (tm : ℤ) ≤ 59 := by exact_mod_cast htm
    omega
  have hfr1 : fromMin ≤ 1439 := by
    have h1 : (fh : ℤ) ≤ 23 := by exact_mod_cast hfh
    have h2 : (fm : ℤ) ≤ 59 := by exact_mod_cast hfm
    omega
  set d : ℤ := (if toMin ≤ fromMin then toMin + 1440 else toMin) - fromMin with hd
  have hd0 : 0 ≤ d := by rw [hd]; split <;> omega
  have hd1 : d ≤ 1440 := by rw [hd]; split <;> omega
  have hq0 : (0 : ℚ) ≤ (d : ℚ) / 60 := by positivity
  have hq1 : (d : ℚ) / 60 ≤ ((24 : ℤ) : ℚ) := by
    rw [div_le_iff₀ (by norm_num : (0 : ℚ) < 60)]
    calc ((d : ℤ) : ℚ) ≤ ((1440 : ℤ) : ℚ) := by exact_mod_cast hd1
      _ = ((24 : ℤ) : ℚ) * 60 := by norm_num
  have hr0 : 0 ≤ round4 ((d : ℚ) / 60) := round4_nonneg hq0
  have hmax : max 0 (round4 ((d : ℚ) / 60)) = round4 ((d : ℚ) / 60) :=
    max_eq_right hr0
  refine ⟨le_max_left _ _, ?_, ?_, ?_⟩
  · rw [hmax]
    have := round4_le_of_le hq1
    simpa using this
  · rw [hmax, round4_idem]
  · intro h1 h2
    have heq : toMin = fromMin := by rw [hto, hfr, h1, h2]
    have hdval : d = 1440 := by rw [hd, heq]; simp
    rw [hmax, hdval]
    have : ((1440 : ℤ) : ℚ) / 60 = ((24 : ℤ) : ℚ) := by norm_num
    rw [this, round4_intCast]
    norm_num

/-- Witness for calculateHours_safe at the equal-times input 10:00/10:00. -/
theorem calculateHours_safe_witness :
    0 ≤ calculateHours (10, 0) (10, 0) ∧
    calculateHours (10, 0) (10, 0) ≤ 24 ∧
    round4 (calculateHours (10, 0) (10, 0)) = calculateHours (10, 0) (10, 0) ∧
    (10 = 10 → 0 = 0 → calculateHours (10, 0) (10, 0) = 24) :=
  calculateHours_safe 10 0 10 0 (by norm_num) (by norm_num) (by norm_num)
    (by norm_num)

/-- C1: on a successful checkout submission, exactly the fully-filled
entries (both times present) are inserted; there are at most 10 of them
(one per slot of the 10-slot form); each inserted row carries entry_number
equal to its 1-based slot position and hours equal to the (to - from)
fractional-hour difference with a 24-hour wrap when to <= from, clamped to
be nonnegative and rounded to 4 decimals (calculateHours); and the entry
from 22:00 to 02:00 yields 4 hours. -/
theorem handleCheckOut_inserted_entries
    (st : ControllerState) (db : Db) (entries : List TimesheetEntry)
    (pid today : Nat) (now : ℤ) (ip : Option String) (tsId attId : Nat)
    (h10 : entries.length = 10)
    (hval : validateTimesheet entries = true)
    (hid : st.attendanceId = some attId) :
    (handleCheckOut st db entries pid today now ip tsId
        ⟨false, false, false⟩).db.timesheet_entries
      = db.timesheet_entries ++ validEntries tsId entries ∧
    (validEntries tsId entries).length ≤ 10 ∧
    (∀ ie ∈ validEntries tsId entries, ∃ j e f t,
        entries[j]? = some e ∧ e.from_time = some f ∧ e.to_time = some t ∧
        ie.entry_number = j + 1 ∧ ie.from_time = some f ∧ ie.to_time = some t ∧
        ie.hours = some (calculateHours f t)) ∧
    (∀ j e, entries[j]? = some e → e.from_time.isSome → e.to_time.isSome →
        ∃ ie ∈ validEntries tsId entries, ie.entry_number = j + 1 ∧
          ie.from_time = e.from_time ∧ ie.to_time = e.to_time ∧
          ie.hours = (match e.from_time, e.to_time with
            | some f, some t => some (calculateHours f t)
            | _, _ => none)) ∧
    (∀ f t : TimeHM, calculateHours f t =
      max 0 (round4
        ((((t.1 * 60 + t.2 : ℤ) - (f.1 * 60 + f.2 : ℤ) : ℤ) : ℚ) / 60 +
          (if (t.1 * 60 + t.2 : ℤ) ≤ (f.1 * 60 + f.2 : ℤ) then 24 else 0)))) ∧
    (∀ q : ℚ, |round4 q - q| ≤ 1 / 20000) ∧
    calculateHours (22, 0) (2, 0) = 4 := by
  have hpos : 0 < (validEntries tsId entries).length := by
    rw [validEntries_length_eq]
    simpa [validateTimesheet] using hval
  refine ⟨?_, ?_, ?_, ?_, calculateHours_claim_formula, round4_close, ?_⟩
  · simp [handleCheckOut, hval, hid, hpos, insertEntriesRows, insertTimesheetRow,
      applyCheckOutUpdate]
  · rw [validEntries_length_eq]
    calc (entries.filter filledEntry).length ≤ entries.length :=
          List.length_filter_le _ _
      _ = 10 := h10
  · intro ie hie
    rcases mem_validEntries.mp hie with ⟨j, e, hje, hf, rfl⟩
    have hf' : e.from_time.isSome = true ∧ e.to_time.isSome = true := by
      simpa [filledEntry, Bool.and_eq_true] using hf
    rcases Option.isSome_iff_exists.mp hf'.1 with ⟨f, hfe⟩
    rcases Option.isSome_iff_exists.mp hf'.2 with ⟨t, hte⟩
    refine ⟨j, e, f, t, hje, hfe, hte, rfl, ?_, ?_, ?_⟩
    · simpa [mkInserted] using hfe
    · simpa [mkInserted] using hte
    · simp [mkInserted, hfe, hte]
  · intro j e hje hfs hts
    exact ⟨mkInserted tsId j e,
      mem_validEntries.mpr ⟨j, e, hje, by simp [filledEntry, hfs, hts], rfl⟩,
      rfl, rfl, rfl, rfl⟩
  · norm_num [calculateHours, round4]

/-- Witness for handleCheckOut_inserted_entries: the sample 10-slot
submission with one overnight entry, submitted at 17:30 of day 100. -/
theorem handleCheckOut_inserted_entries_witness :
    (handleCheckOut sampleState sampleDb sampleEntries 1 100 63000000
        (some "203.0.113.7") 55 ⟨false, false, false⟩).db.timesheet_entries
      = sampleDb.timesheet_entries ++ validEntries 55 sampleEntries ∧
    (validEntries 55 sampleEntries).length ≤ 10 ∧
    (∀ ie ∈ validEntries 55 sampleEntries, ∃ j e f t,
        sampleEntries[j]? = some e ∧ e.from_time = some f ∧ e.to_time = some t ∧
        ie.entry_number = j + 1 ∧ ie.from_time = some f ∧ ie.to_time = some t ∧
        ie.hours = some (calculateHours f t)) ∧
    (∀ j e, sampleEntries[j]? = some e → e.from_time.isSome → e.to_time.isSome →
        ∃ ie ∈ validEntries 55 sampleEntries, ie.entry_number = j + 1 ∧
          ie.from_time = e.from_time ∧ ie.to_time = e.to_time ∧
          ie.hours = (match e.from_time, e.to_time with
            | some f, some t => some (calculateHours f t)
            | _, _ => none)) ∧
    (∀ f t : TimeHM, calculateHours f t =
      max 0 (round4
        ((((t.1 * 60 + t.2 : ℤ) - (f.1 * 60 + f.2 : ℤ) : ℤ) : ℚ) / 60 +
          (if (t.1 * 60 + t.2 : ℤ) ≤ (f.1 * 60 + f.2 : ℤ) then 24 else 0)))) ∧
    (∀ q : ℚ, |round4 q - q| ≤ 1 / 20000) ∧
    calculateHours (22, 0) (2, 0) = 4 :=
  handleCheckOut_inserted_entries sampleState sampleDb sampleEntries 1 100
    63000000 (some "203.0.113.7") 55 7 (by rfl) (by rfl) (by rfl)

/-- C2: with a recorded check-in time, a successful checkout writes onto
every attendance row carrying the controller's attendance id a check-out
timestamp of now and totalHours equal to the elapsed milliseconds
(now - check-in) divided by 3600000, i.e. the elapsed time in fractional
hours; and a 09:00 check-in (32400000 ms) checked out at 17:30 the same day
(63000000 ms) yields exactly 8.5 hours. -/
theorem handleCheckOut_totalHours
    (st : ControllerState) (db : Db) (entries : List TimesheetEntry)
    (pid today : Nat) (now ci : ℤ) (ip : Option String) (tsId attId : Nat)
    (hval : validateTimesheet entries = true)
    (hid : st.attendanceId = some attId)
    (hci : st.checkInTime = some ci) :
    (∀ r ∈ db.attendance, r.id = attId →
      { r with check_out_time := some now, check_out_ip := ip,
               total_hours := some (((now - ci : ℤ) : ℚ) / 3600000),
               timesheet_completed := true }
        ∈ (handleCheckOut st db entries pid today now ip tsId
            ⟨false, false, false⟩).db.attendance) ∧
    totalHoursOf (some 32400000) 63000000 = 17 / 2 := by
  constructor
  · intro r hr hrid
    rw [handleCheckOut_success_eq st db entries pid today now ip tsId attId
      hval hid]
    have hth : totalHoursOf st.checkInTime now = ((now - ci : ℤ) : ℚ) / 3600000 := by
      rw [hci]; rfl
    simp only [insertEntriesRows, insertTimesheetRow, applyCheckOutUpdate, hth]
    refine List.mem_map.mpr ⟨r, hr, ?_⟩
    simp [hrid]
  · norm_num [totalHoursOf]

/-- Witness for handleCheckOut_totalHours: the sample checked-in state,
checked out at 17:30. -/
theorem handleCheckOut_totalHours_witness :
    (∀ r ∈ sampleDb.attendance, r.id = 7 →
      { r with check_out_time := some 63000000,
               check_out_ip := some "203.0.113.7",
               total_hours := some (((63000000 - 32400000 : ℤ) : ℚ) / 3600000),
               timesheet_completed := true }
        ∈ (handleCheckOut sampleState sampleDb sampleEntries 1 100 63000000
            (some "203.0.113.7") 55 ⟨false, false, false⟩).db.attendance) ∧
    totalHoursOf (some 32400000) 63000000 = 17 / 2 :=
  handleCheckOut_totalHours sampleState sampleDb sampleEntries 1 100 63000000
    32400000 (some "203.0.113.7") 55 7 (by rfl) (by rfl) (by rfl)

/-- C3: when no submitted entry has both a from-time and a to-time,
handleCheckOut rejects before any network call: whatever the backend would
have done (the failure flags are universally quantified and never
consulted), the result is an error toast with the controller state and the
backend both unchanged. -/
theorem handleCheckOut_rejects_unfilled
    (st : ControllerState) (db : Db) (entries : List TimesheetEntry)
    (pid today : Nat) (now : ℤ) (ip : Option String) (tsId : Nat)
    (faults : WriteFaults)
    (hempty : ∀ e ∈ entries, e.from_time = none ∨ e.to_time = none) :
    validateTimesheet entries = false ∧
    handleCheckOut st db entries pid today now ip tsId faults =
      { state := st, db := db, toasts := [⟨"Timesheet Required", true⟩] } := by
  have hv : validateTimesheet entries = false := by
    unfold validateTimesheet
    have hnil : entries.filter filledEntry = [] := by
      rw [List.filter_eq_nil_iff]
      intro e he
      rcases hempty e he with h | h <;> simp [filledEntry, h]
    simp [hnil]
  exact ⟨hv, by simp [handleCheckOut, hv]⟩

/-- Witness for handleCheckOut_rejects_unfilled: a submission whose only
touched slot has just a from-time, with all three backend writes set to
fail (they are never reached). -/
theorem handleCheckOut_rejects_unfilled_witness :
    validateTimesheet emptyEntries = false ∧
    handleCheckOut sampleState sampleDb emptyEntries 1 100 63000000
        (some "203.0.113.7") 55 ⟨true, true, true⟩ =
      { state := sampleState, db := sampleDb,
        toasts := [⟨"Timesheet Required", true⟩] } :=
  handleCheckOut_rejects_unfilled sampleState sampleDb emptyEntries 1 100
    63000000 (some "203.0.113.7") 55 ⟨true, true, true⟩ (by decide)

theorem findToday_any {db : Db} {pid today : Nat}
    (h : (findToday db pid today).isSome) :
    db.attendance.any
      (fun x => x.profile_id == pid && x.attendance_date == today) = true := by
  rw [List.any_eq_true]
  rcases Option.isSome_iff_exists.mp h with ⟨r, hr⟩
  unfold findToday at hr
  have hp := List.find?_some hr
  exact ⟨r, List.mem_of_find?_eq_some hr, hp⟩

theorem findToday_none_any {db : Db} {pid today : Nat}
    (h : findToday db pid today = none) :
    db.attendance.any
      (fun x => x.profile_id == pid && x.attendance_date == today) = false := by
  rw [List.any_eq_false]
  unfold findToday at h
  intro x hx
  have := List.find?_eq_none.mp h x hx
  simpa using this

/-- C4: while an attendance record for (profile, today) exists in the
backend — open or completed — handleCheckIn reports an error, inserts
nothing and leaves controller state and backend unchanged: either the
client-side guard fires, or the insert violates the per-(profile, date)
per-(profile_id, attendance_date) UNIQUE constraint of the attendance
table (part_005 line 131) and the caught error changes nothing.
On a later day with no record, check-in from the midnight-reset state
succeeds again. -/
theorem handleCheckIn_once_per_day
    (st : ControllerState) (db : Db) (pid today : Nat) (now : ℤ)
    (ip : Option String) (newId : Nat)
    (hexists : (findToday db pid today).isSome) :
    (handleCheckIn st db pid today now ip newId).state = st ∧
    (handleCheckIn st db pid today now ip newId).db = db ∧
    (∃ tm, (handleCheckIn st db pid today now ip newId).toasts = [tm] ∧
      tm.isError = true) ∧
    (∀ d2 id2 now2 ip2, findToday db pid d2 = none →
      (handleCheckIn (midnightResetState st) db pid d2 now2 ip2 id2).state =
        { isCheckedIn := true, checkInTime := some now2,
          attendanceId := some id2, isCompletedToday := false } ∧
      (handleCheckIn (midnightResetState st) db pid d2 now2 ip2 id2).toasts =
        [⟨"Checked In", false⟩]) := by
  have hany := findToday_any hexists
  refine ⟨?_, ?_, ?_, ?_⟩
  · cases hg : (st.attendanceId.isSome && !st.isCompletedToday) <;>
      simp [handleCheckIn, hg, insertAttendance, hany]
  · cases hg : (st.attendanceId.isSome && !st.isCompletedToday) <;>
      simp [handleCheckIn, hg, insertAttendance, hany]
  · cases hg : (st.attendanceId.isSome && !st.isCompletedToday) <;>
      [exact ⟨⟨"Error", true⟩,
        by simp [handleCheckIn, hg, insertAttendance, hany], rfl⟩;
       exact ⟨⟨"Already Checked In", true⟩,
        by simp [handleCheckIn, hg, insertAttendance, hany], rfl⟩]
  · intro d2 id2 now2 ip2 hnone
    have hany2 := findToday_none_any hnone
    constructor <;>
      simp [handleCheckIn, midnightResetState, insertAttendance, hany2]

/-- Witness for handleCheckIn_once_per_day: a second check-in against the
open sample row is rejected wholesale, and day 101 (recordless) accepts. -/
theorem handleCheckIn_once_per_day_witness :
    (handleCheckIn sampleState sampleDb 1 100 46800000 (some "203.0.113.7")
        9).state = sampleState ∧
    (handleCheckIn sampleState sampleDb 1 100 46800000 (some "203.0.113.7")
        9).db = sampleDb ∧
    (∃ tm, (handleCheckIn sampleState sampleDb 1 100 46800000
        (some "203.0.113.7") 9).toasts = [tm] ∧ tm.isError = true) ∧
    (∀ d2 id2 now2 ip2, findToday sampleDb 1 d2 = none →
      (handleCheckIn (midnightResetState sampleState) sampleDb 1 d2 now2 ip2
          id2).state =
        { isCheckedIn := true, checkInTime := some now2,
          attendanceId := some id2, isCompletedToday := false } ∧
      (handleCheckIn (midnightResetState sampleState) sampleDb 1 d2 now2 ip2
          id2).toasts = [⟨"Checked In", false⟩]) :=
  handleCheckIn_once_per_day sampleState sampleDb 1 100 46800000
    (some "203.0.113.7") 9 (by rfl)

/-- C5: if any of the three checkout writes fails, handleCheckOut surfaces
an error toast and keeps the controller state exactly as it was (the
CheckedIn state is retained, no completion flags are set), while every
write that succeeded before the failing one stays in the backend — no
rollback happens. -/
theorem handleCheckOut_partial_failure
    (st : ControllerState) (db : Db) (entries : List TimesheetEntry)
    (pid today : Nat) (now : ℤ) (ip : Option String) (tsId attId : Nat)
    (faults : WriteFaults)
    (hval : validateTimesheet entries = true)
    (hid : st.attendanceId = some attId)
    (hfail : faults.updateAttendance = true ∨ faults.insertTimesheet = true ∨
      faults.insertEntries = true) :
    (handleCheckOut st db entries pid today now ip tsId faults).state = st ∧
    (handleCheckOut st db entries pid today now ip tsId faults).toasts =
      [⟨"Error", true⟩] ∧
    (faults.updateAttendance = true →
      (handleCheckOut st db entries pid today now ip tsId faults).db = db) ∧
    (faults.updateAttendance = false → faults.insertTimesheet = true →
      (handleCheckOut st db entries pid today now ip tsId faults).db =
        applyCheckOutUpdate db attId now ip (totalHoursOf st.checkInTime now)) ∧
    (faults.updateAttendance = false → faults.insertTimesheet = false →
      faults.insertEntries = true →
      (handleCheckOut st db entries pid today now ip tsId faults).db =
        insertTimesheetRow
          (applyCheckOutUpdate db attId now ip (totalHoursOf st.checkInTime now))
          { id := tsId, profile_id := pid, timesheet_date := today,
            status := "submitted", submitted_at := some now,
            total_hours := some (totalHoursOf st.checkInTime now) }) := by
  have hpos := @validEntries_pos tsId entries hval
  rcases faults with ⟨fa, ft, fe⟩
  cases fa <;> cases ft <;> cases fe <;>
    simp_all [handleCheckOut, hval, hid, hpos]

/-- Witness for handleCheckOut_partial_failure: the timesheets insert
fails; the attendance update that already happened is kept. -/
theorem handleCheckOut_partial_failure_witness :
    (handleCheckOut sampleState sampleDb sampleEntries 1 100 63000000
        (some "203.0.113.7") 55 ⟨false, true, false⟩).state = sampleState ∧
    (handleCheckOut sampleState sampleDb sampleEntries 1 100 63000000
        (some "203.0.113.7") 55 ⟨false, true, false⟩).toasts =
      [⟨"Error", true⟩] ∧
    (false = true →
      (handleCheckOut sampleState sampleDb sampleEntries 1 100 63000000
          (some "203.0.113.7") 55 ⟨false, true, false⟩).db = sampleDb) ∧
    (false = false → true = true →
      (handleCheckOut sampleState sampleDb sampleEntries 1 100 63000000
          (some "203.0.113.7") 55 ⟨false, true, false⟩).db =
        applyCheckOutUpdate sampleDb 7 63000000 (some "203.0.113.7")
          (totalHoursOf sampleState.checkInTime 63000000)) ∧
    (false = false → true = false → false = true →
      (handleCheckOut sampleState sampleDb sampleEntries 1 100 63000000
          (some "203.0.113.7") 55 ⟨false, true, false⟩).db =
        insertTimesheetRow
          (applyCheckOutUpdate sampleDb 7 63000000 (some "203.0.113.7")
            (totalHoursOf sampleState.checkInTime 63000000))
          { id := 55, profile_id := 1, timesheet_date := 100,
            status := "submitted", submitted_at := some 63000000,
            total_hours :=
              some (totalHoursOf sampleState.checkInTime 63000000) }) :=
  handleCheckOut_partial_failure sampleState sampleDb sampleEntries 1 100
    63000000 (some "203.0.113.7") 55 7 ⟨false, true, false⟩ (by rfl) (by rfl)
    (Or.inr (Or.inl rfl))

/-- C6: the midnight callback clears all four in-memory state fields (the
display becomes NotCheckedIn whatever the prior state, including
CompletedToday), re-queries today's attendance record from the backend, and
reschedules itself with the delay to the next local midnight: the
rescheduled firing instant is exactly the next midnight boundary, one
calendar day later. -/
theorem fireMidnightTimer_resets
    (st : ControllerState) (db : Db) (pid : Nat) (t : ℤ) :
    displayOf (midnightResetState st) = Display.notCheckedIn ∧
    (midnightResetState st).isCheckedIn = false ∧
    (midnightResetState st).checkInTime = none ∧
    (midnightResetState st).attendanceId = none ∧
    (midnightResetState st).isCompletedToday = false ∧
    (fireMidnightTimer st db pid t).1 =
      checkTodayAttendance (midnightResetState st) db pid (dayOf t).toNat ∧
    0 < (fireMidnightTimer st db pid t).2 ∧
    (fireMidnightTimer st db pid t).2 ≤ msPerDay ∧
    t + (fireMidnightTimer st db pid t).2 = nextMidnightOf t ∧
    (t + (fireMidnightTimer st db pid t).2) % msPerDay = 0 ∧
    dayOf (t + (fireMidnightTimer st db pid t).2) = dayOf t + 1 := by
  refine ⟨by simp [displayOf, midnightResetState], rfl, rfl, rfl, rfl, rfl,
    ?_, ?_, ?_, ?_, ?_⟩ <;>
    simp only [fireMidnightTimer, msUntilMidnight, nextMidnightOf, dayOf,
      msPerDay] <;>
    omega

/-- C7 (refuting the cancellation claim): after the widget mounts and one
midnight firing reschedules the timer, the effect cleanup still clears only
the timer id captured at mount, so the rescheduled timer survives the
unmount (pending = [1]); only an unmount that happens before any midnight
firing leaves nothing pending. -/
theorem midnightTimer_survives_unmount :
    (unmountCleanup
        (fireTimerSys (mountTimers ⟨[], 0⟩).1 (mountTimers ⟨[], 0⟩).2)
        (mountTimers ⟨[], 0⟩).2).pending = [1] ∧
    (unmountCleanup (mountTimers ⟨[], 0⟩).1 (mountTimers ⟨[], 0⟩).2).pending
      = [] ∧
    ([1] : List Nat) ≠ [] := by decide

/-- C8 counterexample: against the same backend record (open row 7: check-in
present, no check-out), two different prior in-memory states produce two
different displays — a prior CompletedToday flag survives the re-query
because the open-record branch of checkTodayAttendance never clears it —
so the displayed state is not a function of the record alone, and an open
record need not yield CheckedIn. -/
theorem checkTodayAttendance_stale_completed_flag :
    displayOf (checkTodayAttendance
        { isCheckedIn := false, checkInTime := none,
          attendanceId := some 7, isCompletedToday := true } sampleDb 1 100)
      = Display.completedToday ∧
    displayOf (checkTodayAttendance
        { isCheckedIn := false, checkInTime := none,
          attendanceId := none, isCompletedToday := false } sampleDb 1 100)
      = Display.checkedIn ∧
    Display.completedToday ≠ Display.checkedIn := by decide

/-- C8 (amended): provided the prior in-memory CompletedToday flag is clear
and every backend row has a check-in time (as every row created by this
application does), the re-query makes the display a function of the backend
record alone: no record yields NotCheckedIn, a record with a check-out time
yields CompletedToday, and an open record yields CheckedIn. -/
theorem checkTodayAttendance_resync
    (st : ControllerState) (db : Db) (pid today : Nat)
    (hflag : st.isCompletedToday = false)
    (hwf : ∀ r ∈ db.attendance, r.check_in_time.isSome) :
    displayOf (checkTodayAttendance st db pid today) =
      (match findToday db pid today with
       | none => Display.notCheckedIn
       | some r =>
          if r.check_out_time.isSome then Display.completedToday
          else Display.checkedIn) := by
  cases hf : findToday db pid today with
  | none => simp [checkTodayAttendance, hf, displayOf, hflag]
  | some r =>
      have hrmem : r ∈ db.attendance :=
        List.mem_of_find?_eq_some (by simpa [findToday] using hf)
      have hci : r.check_in_time.isSome = true := hwf r hrmem
      cases hco : r.check_out_time.isSome with
      | true => simp [checkTodayAttendance, hf, hci, hco, displayOf]
      | false => simp [checkTodayAttendance, hf, hci, hco, displayOf, hflag]

/-- Witness for checkTodayAttendance_resync: the sample checked-in state
against the open sample row. -/
theorem checkTodayAttendance_resync_witness :
    displayOf (checkTodayAttendance sampleState sampleDb 1 100) =
      (match findToday sampleDb 1 100 with
       | none => Display.notCheckedIn
       | some r =>
          if r.check_out_time.isSome then Display.completedToday
          else Display.checkedIn) :=
  checkTodayAttendance_resync sampleState sampleDb 1 100 (by rfl) (by decide)

/-- C9 counterexample: a record that has a check-out time but a stored
total_hours of 0 displays the dash fallback, not the formatted stored value
(the storedHours truthiness test treats 0 like null). -/
theorem formatWorkingHours_zero_stored :
    formatWorkingHours (some 0) (some 3600000) (some 0) 3600000 = "-" ∧
    "-" ≠ "00:00:00" := by
  constructor
  · simp [formatWorkingHours, truthyNum]
  · decide

/-- C9 (amended): with a check-out time and a truthy (non-null, nonzero)
stored totalHours the display is the stored value decomposed into
HH:MM:SS — the three printed fields carry floor-hours, minutes and seconds
whose recomposition is exactly floor(totalHours * 3600) seconds; while
checked in (no check-out) the display decomposes the live truncated-second
difference currentTime - checkIn, re-evaluated at every currentTime tick. -/
theorem formatWorkingHours_spec
    (ci t co : ℤ) (q : ℚ)
    (hq0 : 0 ≤ q) (hqne : q ≠ 0) (hct : ci ≤ t) :
    (∃ H M S : ℤ,
      formatWorkingHours (some ci) (some co) (some q) t =
        pad2 H ++ ":" ++ pad2 M ++ ":" ++ pad2 S ∧
      H * 3600 + M * 60 + S = ⌊q * 3600⌋ ∧
      0 ≤ H ∧ 0 ≤ M ∧ M < 60 ∧ 0 ≤ S ∧ S < 60) ∧
    (∃ H M S : ℤ,
      formatWorkingHours (some ci) none none t =
        pad2 H ++ ":" ++ pad2 M ++ ":" ++ pad2 S ∧
      H * 3600 + M * 60 + S = (t - ci) / 1000 ∧
      0 ≤ H ∧ 0 ≤ M ∧ M < 60 ∧ 0 ≤ S ∧ S < 60) := by
  constructor
  · have htr : truthyNum (some q) = true := by simp [truthyNum, hqne]
    refine ⟨⌊q⌋, ⌊(q - ((⌊q⌋ : ℤ) : ℚ)) * 60⌋,
      ⌊((q - ((⌊q⌋ : ℤ) : ℚ)) * 60 -
          ((⌊(q - ((⌊q⌋ : ℤ) : ℚ)) * 60⌋ : ℤ) : ℚ)) * 60⌋,
      ?_, ?_, ?_, ?_, ?_, ?_, ?_⟩
    · simp [formatWorkingHours, htr]
    · have h1 : ((q - ((⌊q⌋ : ℤ) : ℚ)) * 60 -
            ((⌊(q - ((⌊q⌋ : ℤ) : ℚ)) * 60⌋ : ℤ) : ℚ)) * 60
          = q * 3600 -
            ((⌊q⌋ * 3600 + ⌊(q - ((⌊q⌋ : ℤ) : ℚ)) * 60⌋ * 60 : ℤ) : ℚ) := by
        push_cast; ring
      rw [h1, Int.floor_sub_int]
      ring
    · exact Int.floor_nonneg.mpr hq0
    · refine Int.floor_nonneg.mpr ?_
      have h2 := Int.floor_le q
      nlinarith
    · refine Int.floor_lt.mpr ?_
      have h2 := Int.lt_floor_add_one q
      push_cast
      nlinarith
    · refine Int.floor_nonneg.mpr ?_
      have h2 := Int.floor_le ((q - ((⌊q⌋ : ℤ) : ℚ)) * 60)
      nlinarith
    · refine Int.floor_lt.mpr ?_
      have h2 := Int.lt_floor_add_one ((q - ((⌊q⌋ : ℤ) : ℚ)) * 60)
      push_cast
      nlinarith
  · have hd0 : 0 ≤ (t - ci) / 1000 := by omega
    refine ⟨(t - ci) / 1000 / 3600, ((t - ci) / 1000 % 3600) / 60,
      (t - ci) / 1000 % 60, ?_, ?_, ?_, ?_, ?_, ?_, ?_⟩
    · simp [formatWorkingHours]
    all_goals omega

/-- Witness for formatWorkingHours_spec: stored 8.5 hours checked out, and
a live display 17.5 hours after a midnight check-in. -/
theorem formatWorkingHours_spec_witness :
    (∃ H M S : ℤ,
      formatWorkingHours (some 0) (some 63000000) (some (17 / 2)) 63000000 =
        pad2 H ++ ":" ++ pad2 M ++ ":" ++ pad2 S ∧
      H * 3600 + M * 60 + S = ⌊(17 / 2 : ℚ) * 3600⌋ ∧
      0 ≤ H ∧ 0 ≤ M ∧ M < 60 ∧ 0 ≤ S ∧ S < 60) ∧
    (∃ H M S : ℤ,
      formatWorkingHours (some 0) none none 63000000 =
        pad2 H ++ ":" ++ pad2 M ++ ":" ++ pad2 S ∧
      H * 3600 + M * 60 + S = (63000000 - 0) / 1000 ∧
      0 ≤ H ∧ 0 ≤ M ∧ M < 60 ∧ 0 ≤ S ∧ S < 60) :=
  formatWorkingHours_spec 0 63000000 63000000 (17 / 2) (by norm_num)
    (by norm_num) (by norm_num)

end HRMS
